import Mathlib

/-!
Shallow embedding of `setup.py` of the tenpy repository.

The build script reads environment variables (`TENPY_OPTIMIZE`, the MKL
location variables, `CONDA_PREFIX`, `HAVE_MKL`, `MKL_INTERFACE_LAYER`),
probes the filesystem (`os.path.exists`) and calls git via subprocess.
We model:
  * the environment as a record of `Option String` fields
    (`none` = variable unset, `some s` = variable set to the string `s`,
    possibly empty);
  * the filesystem as an existence oracle `String → Bool`;
  * subprocess output as an oracle `List String → Except String String`
    (`Except.error` = the call raised, e.g. `CalledProcessError`);
  * Python exceptions as `Except String`;
  * side effects (subprocess invocations, file writes) as explicit
    effect lists returned alongside the value.
-/

/-- Python `str.strip()`: drop leading and trailing whitespace. -/
def pyStrip (s : String) : String :=
  (((s.toList.dropWhile Char.isWhitespace).reverse.dropWhile Char.isWhitespace).reverse).asString

/-- Python `int(s)` on a string: optional surrounding whitespace, an optional
sign, then at least one decimal digit.  (Digit-group underscores accepted by
Python 3.6+ are not modelled; no claim depends on them.)  `none` models the
`ValueError` raised by `int` on any other string. -/
def parsePyInt (s : String) : Option Int :=
  let digitsToNat : List Char → Option Nat := fun cs =>
    if cs ≠ [] ∧ cs.all Char.isDigit then
      some (cs.foldl (fun a c => a * 10 + (c.toNat - 48)) 0)
    else none
  match (pyStrip s).toList with
  | '-' :: rest => (digitsToNat rest).map (fun n => -(n : Int))
  | '+' :: rest => (digitsToNat rest).map (fun n => (n : Int))
  | cs => (digitsToNat cs).map (fun n => (n : Int))

/-- Model of `os.path.join` for the plain relative components used in
`setup.py` (no absolute second argument, no trailing separators). -/
def pathJoin (a b : String) : String := a ++ "/" ++ b

/-- Model of `numpy.get_include()`: some fixed include directory of the
installed numpy; its concrete value is irrelevant to every claim. -/
def numpyGetInclude : String := "numpy-include-dir"

/-- The environment variables read by `setup.py`.  A field is `none` when the
variable is unset and `some s` when it is set to `s` (possibly `""`). -/
structure Env where
  tenpyOptimize : Option String
  haveMkl : Option String
  mklDir : Option String
  mklRoot : Option String
  mklHome : Option String
  condaPrefix : Option String
  mklInterfaceLayer : Option String
deriving DecidableEq

/-- The `compiler_directives` dict built in `setup_cython_extension`
(lines 87-99).  `language_level` and `embedsignature` are always present;
the four optional directives are `none` when the corresponding key is
absent from the dict (left at Cython's checked defaults). -/
structure CompilerDirectives where
  language_level : Int
  embedsignature : Bool
  initializedcheck : Option Bool
  boundscheck : Option Bool
  profile : Option Bool
  linetrace : Option Bool
deriving DecidableEq

/-- The `compile_time_env` dict (`cython_macros` in `setup.py`):
`HAVE_MKL` is always set; `MKL_INTERFACE_LAYER` only when MKL is used. -/
structure CythonCompileTimeEnv where
  HAVE_MKL : Int
  MKL_INTERFACE_LAYER : Option Int
deriving DecidableEq

/-- One cythonized extension module: the `Extension(...)` arguments from
lines 129-136 of `setup.py` together with the `compiler_directives` and
`compile_time_env` arguments that `cythonize` received (lines 137-139).
`cythonize` itself is external (Cython); we model its output as carrying
exactly the data it was given. -/
structure ExtModule where
  name : String
  sources : List String
  include_dirs : List String
  libraries : List String
  library_dirs : List String
  defineMacroDefs : List (String × Option String)
  language : String
  compiler_directives : CompilerDirectives
  compileTimeEnv : CythonCompileTimeEnv
deriving DecidableEq

/-- `TENPY_OPTIMIZE = int(os.getenv("TENPY_OPTIMIZE", 1))` (line 93):
when the variable is unset `os.getenv` returns the default `1` and
`int(1) = 1`; when it is set, `int` parses the string and raises
`ValueError` on failure. -/
def readTenpyOptimize (env : Env) : Except String Int :=
  match env.tenpyOptimize with
  | none => Except.ok 1
  | some s =>
    match parsePyInt s with
    | some n => Except.ok n
    | none => Except.error ("ValueError: invalid literal for int: " ++ s)

/-- The `comp_direct` dict after lines 87-99: baseline
`language_level = 3`, `embedsignature = True`; `TENPY_OPTIMIZE > 1`
adds `initializedcheck = False` and `boundscheck = False`;
`TENPY_OPTIMIZE < 1` adds `profile = True` and `linetrace = True`. -/
def compDirect (lvl : Int) : CompilerDirectives where
  language_level := 3
  embedsignature := true
  initializedcheck := if lvl > 1 then some false else none
  boundscheck := if lvl > 1 then some false else none
  profile := if lvl < 1 then some true else none
  linetrace := if lvl < 1 then some true else none

/-- `MKL_DIR = os.getenv("MKL_DIR", os.getenv("MKLROOT", os.getenv("MKL_HOME", "")))`
(line 101).  Note the fallback chain: a variable that is *set* shadows the
later ones even when its value is the empty string. -/
def mklDirChain (env : Env) : String :=
  env.mklDir.getD (env.mklRoot.getD (env.mklHome.getD ""))

/-- Lines 100-113: auto-detect `HAVE_MKL` from the MKL directory chain and
from `$CONDA_PREFIX/include/mkl.h`, then let a set `HAVE_MKL` environment
variable override the result (`int(...)` may raise `ValueError`). -/
def resolveHaveMkl (env : Env) (fs : String → Bool) : Except String Int :=
  let auto1 : Int := if mklDirChain env ≠ "" then 1 else 0
  let conda : String := env.condaPrefix.getD ""
  let auto2 : Int :=
    if conda ≠ "" then
      if auto1 = 0 then
        if fs (pathJoin (pathJoin conda "include") "mkl.h") then 1 else 0
      else auto1
    else auto1
  match env.haveMkl with
  | none => Except.ok auto2
  | some s =>
    match parsePyInt s with
    | some n => Except.ok n
    | none => Except.error ("ValueError: invalid literal for int: " ++ s)

/-- The single `Extension` of lines 129-136 plus the `cythonize` arguments,
assembled from the include/library directories, libraries, C macro
definitions and Cython compile-time environment computed in lines 82-127.
`lvl` is the parsed `TENPY_OPTIMIZE`, `hm` the resolved `HAVE_MKL`. -/
def buildExtModule (env : Env) (lvl hm : Int) : ExtModule :=
  let mklDir := mklDirChain env
  let conda : String := env.condaPrefix.getD ""
  let ilp64 : Bool := (env.mklInterfaceLayer.getD "LP64").startsWith "ILP64"
  { name := "*"
    sources := ["tenpy/linalg/*.pyx"]
    include_dirs :=
      [numpyGetInclude]
        ++ (if mklDir ≠ "" then [pathJoin mklDir "include"] else [])
        ++ (if conda ≠ "" then [pathJoin conda "include"] else [])
    libraries := if hm ≠ 0 then ["mkl_rt", "pthread", "iomp5"] else []
    library_dirs :=
      (if mklDir ≠ "" then [pathJoin (pathJoin mklDir "lib") "intel64"] else [])
        ++ (if conda ≠ "" then [pathJoin conda "lib"] else [])
    defineMacroDefs := if hm ≠ 0 ∧ ilp64 then [("MKL_ILP64", none)] else []
    language := "c++"
    compiler_directives := compDirect lvl
    compileTimeEnv :=
      { HAVE_MKL := hm
        MKL_INTERFACE_LAYER := if hm ≠ 0 then some (if ilp64 then 1 else 0) else none } }

/-- `setup_cython_extension` (lines 77-140).  `cythonAvailable` models
whether the `from Cython.Build import cythonize` at line 4 succeeded
(`cythonize is None` otherwise, line 78).  The two `int(...)` calls are the
only statements of the function that can raise; they raise in source order
(`TENPY_OPTIMIZE` at line 93 before `HAVE_MKL` at line 113). -/
def setup_cython_extension (cythonAvailable : Bool) (env : Env)
    (fs : String → Bool) : Except String (List ExtModule) :=
  if cythonAvailable = false then Except.ok []
  else
    match readTenpyOptimize env with
    | Except.error e => Except.error e
    | Except.ok lvl =>
      match resolveHaveMkl env fs with
      | Except.error e => Except.error e
      | Except.ok hm => Except.ok [buildExtModule env lvl hm]

/-- The ambient world of the version-stamping helpers: filesystem existence,
the output of `subprocess.check_output` on a given argument list
(`Except.error` = the call raised), and the installed numpy/Cython version
strings read at lines 73-74. -/
structure World where
  fs : String → Bool
  gitOutput : List String → Except String String
  numpyFullVersion : String
  cythonVersion : String

/-- Hardcoded version numbers, lines 14-16 of `setup.py`. -/
def MAJOR : Nat := 0

/-- Hardcoded version numbers, lines 14-16 of `setup.py`. -/
def MINOR : Nat := 10

/-- Hardcoded version numbers, lines 14-16 of `setup.py`. -/
def MICRO : Nat := 0

/-- `RELEASED = False`, line 15. -/
def RELEASED : Bool := false

/-- `VERSION = '\x7b0:d\x7d.\x7b1:d\x7d.\x7b2:d\x7d'.format(MAJOR, MINOR, MICRO)`, line 16. -/
def VERSION : String := toString MAJOR ++ "." ++ toString MINOR ++ "." ++ toString MICRO

/-- `get_git_revision` (lines 19-29): paired with the list of subprocess
invocations it performed.  Without a `.git` entry it returns `"unknown"`
at once; otherwise it runs `git rev-parse HEAD`, strips the output, and
falls back to `"unknown"` if the call raised. -/
def get_git_revision (w : World) : String × List (List String) :=
  if w.fs ".git" = false then ("unknown", [])
  else
    match w.gitOutput ["git", "rev-parse", "HEAD"] with
    | Except.ok out => (pyStrip out, [["git", "rev-parse", "HEAD"]])
    | Except.error _ => ("unknown", [["git", "rev-parse", "HEAD"]])

/-- `get_git_description` (lines 32-43), paired with its subprocess
invocations.  Without `.git` it returns `0`; a raising `git describe` also
yields `0` (the `except` at line 41); but `int(descr.split('-')[1])` at
line 43 sits *outside* the `try` and can itself raise (`IndexError` when
the output has no `-`, `ValueError` when the field is not an integer). -/
def get_git_description (w : World) : Except String Int × List (List String) :=
  if w.fs ".git" = false then (Except.ok 0, [])
  else
    match w.gitOutput ["git", "describe", "--tags", "--long"] with
    | Except.error _ => (Except.ok 0, [["git", "describe", "--tags", "--long"]])
    | Except.ok out =>
      match ((pyStrip out).splitOn "-").get? 1 with
      | none => (Except.error "IndexError: list index out of range",
                 [["git", "describe", "--tags", "--long"]])
      | some field =>
        match parsePyInt field with
        | some n => (Except.ok n, [["git", "describe", "--tags", "--long"]])
        | none => (Except.error ("ValueError: invalid literal for int: " ++ field),
                   [["git", "describe", "--tags", "--long"]])

/-- `get_version_info` (lines 46-51): `full_version` is `VERSION`, extended
(since `RELEASED` is false) with `.dev\x7b...\x7d+\x7b...\x7d` built from the commit count
and the first 7 characters of the revision hash. -/
def get_version_info (w : World) : Except String (String × String) × List (List String) :=
  let rev := get_git_revision w
  if RELEASED = true then (Except.ok (VERSION, rev.1), rev.2)
  else
    match get_git_description w with
    | (Except.ok d, t) =>
      (Except.ok (VERSION ++ ".dev" ++ toString d ++ "+" ++ rev.1.take 7, rev.1),
       rev.2 ++ t)
    | (Except.error e, t) => (Except.error e, rev.2 ++ t)

/-- The fully formatted `content` string of lines 57-74. -/
def versionFileContent (full_version git_rev numpy_ver cython_ver : String) : String :=
  "# THIS FILE IS GENERATED FROM setup.py\n" ++
  "# thus, it contains the version during compilation\n" ++
  "# Copyright 2018-2023 TeNPy Developers, GNU GPLv3\n" ++
  "version = '" ++ VERSION ++ "'\n" ++
  "short_version = 'v' + version\n" ++
  "released = " ++ (if RELEASED = true then "True" else "False") ++ "\n" ++
  "full_version = '" ++ full_version ++ "'\n" ++
  "git_revision = '" ++ git_rev ++ "'\n" ++
  "numpy_version = '" ++ numpy_ver ++ "'\n" ++
  "cython_version = '" ++ cython_ver ++ "'\n"

/-- The value and effects of a `setup.py` helper call: its result (or the
exception it raised), the subprocess invocations it made, and the
`(filename, data)` pairs it wrote to the filesystem. -/
structure PyOutcome (α : Type) where
  val : Except String α
  procCalls : List (List String)
  fileWrites : List (String × String)

/-- `write_underscore_version_py` (lines 54-74): computes the version info,
formats the `content` string — and stops there.  The function body contains
no `open`/`write` call, so the formatted content is discarded and the
`filename` parameter (default `'tenpy/_version.py'`) is never used.  The
returned value is the formatted content (what *would* have been written). -/
def write_underscore_version_py (w : World) (filename : String) : PyOutcome String :=
  let _ := filename
  match get_version_info w with
  | (Except.error e, t) => { val := Except.error e, procCalls := t, fileWrites := [] }
  | (Except.ok (full_version, git_rev), t) =>
    { val := Except.ok
        (versionFileContent full_version git_rev w.numpyFullVersion w.cythonVersion)
      procCalls := t
      fileWrites := [] }

/-- Modelled from the spec: the runtime Optimization Level Controller
(`tenpy/tools/optimization.py`, referenced at line 92 of `setup.py` but not
part of the sources).  Per the spec it is a "process-wide integer level,
read at the start of each operation that has a cheaper/unchecked variant",
it "may be changed at runtime", and "level ≥ 2 disables bounds and
consistency checks" while lower levels keep the invariant checks on.
An event is either a runtime change of the global level or an operation. -/
inductive OptEvent where
  | setLevel (l : Int)
  | operation (name : String)
deriving DecidableEq

/-- Modelled from the spec: whether invariant checks run at a given level —
levels below 2 validate, level ≥ 2 skips validation for speed. -/
def checksEnabled (l : Int) : Bool := decide (l < 2)

/-- Modelled from the spec: run a sequence of events against the process-wide
level, starting from `lvl`.  Each operation reads the *current* global level
at its start and records whether it validated invariants; `setLevel` mutates
the one piece of process-wide state. -/
def runWithOptimization (lvl : Int) : List OptEvent → List (String × Bool)
  | [] => []
  | OptEvent.setLevel l :: rest => runWithOptimization l rest
  | OptEvent.operation n :: rest => (n, checksEnabled lvl) :: runWithOptimization lvl rest

/-- Strip the four optional checking/profiling compiler directives from a
module, keeping everything else: two modules are equal after this erasure
iff they agree on all data except those directives. -/
def eraseCheckingDirectives (m : ExtModule) : ExtModule :=
  { m with compiler_directives :=
      { m.compiler_directives with
          initializedcheck := none
          boundscheck := none
          profile := none
          linetrace := none } }

/-- An environment with every variable unset. -/
def envAllUnset : Env := ⟨none, none, none, none, none, none, none⟩

/-- A filesystem on which no path exists. -/
def fsEmpty : String → Bool := fun _ => false

lemma eraseCheckingDirectives_buildExtModule (env : Env) (s : Option String)
    (lvl lvl' hm : Int) :
    eraseCheckingDirectives (buildExtModule { env with tenpyOptimize := s } lvl hm)
      = eraseCheckingDirectives (buildExtModule env lvl' hm) := by
  simp [eraseCheckingDirectives, buildExtModule, mklDirChain, compDirect]

/-- Claim C1: changing `TENPY_OPTIMIZE` between two runs of
`setup_cython_extension` (all other environment variables and the
filesystem unchanged) never changes the produced extension: the two ok
results are identical after erasing the checking/profiling compiler
directives — same sources, include dirs, linked libraries, library dirs,
C macro definitions, Cython compile-time environment, and the same
baseline `language_level`/`embedsignature` directives. -/
theorem tenpy_optimize_noninterference (avail : Bool) (env : Env)
    (fs : String → Bool) (s s' : Option String) (lvl lvl' : Int)
    (h : readTenpyOptimize { env with tenpyOptimize := s } = Except.ok lvl)
    (h' : readTenpyOptimize { env with tenpyOptimize := s' } = Except.ok lvl') :
    (setup_cython_extension avail { env with tenpyOptimize := s } fs).map
        (List.map eraseCheckingDirectives)
      = (setup_cython_extension avail { env with tenpyOptimize := s' } fs).map
        (List.map eraseCheckingDirectives) := by
  cases avail with
  | false => rfl
  | true =>
    simp only [setup_cython_extension, Bool.true_eq_false, if_neg, reduceIte]
    rw [h, h']
    have hr : resolveHaveMkl { env with tenpyOptimize := s } fs
        = resolveHaveMkl { env with tenpyOptimize := s' } fs := rfl
    rw [hr]
    cases hres : resolveHaveMkl { env with tenpyOptimize := s' } fs with
    | error e => rfl
    | ok hm =>
      simp only [Except.map, List.map]
      rw [eraseCheckingDirectives_buildExtModule env s lvl lvl' hm,
          eraseCheckingDirectives_buildExtModule env s' lvl' lvl' hm]

/-- Witness for C1 at `TENPY_OPTIMIZE = "0"` versus `"2"`. -/
theorem tenpy_optimize_noninterference_witness :
    readTenpyOptimize { envAllUnset with tenpyOptimize := some "0" } = Except.ok 0 ∧
    readTenpyOptimize { envAllUnset with tenpyOptimize := some "2" } = Except.ok 2 ∧
    (setup_cython_extension true { envAllUnset with tenpyOptimize := some "0" } fsEmpty).map
        (List.map eraseCheckingDirectives)
      = (setup_cython_extension true { envAllUnset with tenpyOptimize := some "2" } fsEmpty).map
        (List.map eraseCheckingDirectives) :=
  ⟨rfl, rfl,
    tenpy_optimize_noninterference true envAllUnset fsEmpty (some "0") (some "2") 0 2 rfl rfl⟩

lemma setup_ok_module (avail : Bool) (env : Env) (fs : String → Bool)
    (lvl : Int) (mods : List ExtModule) (m : ExtModule)
    (hlvl : readTenpyOptimize env = Except.ok lvl)
    (hrun : setup_cython_extension avail env fs = Except.ok mods)
    (hm : m ∈ mods) :
    m.compiler_directives = compDirect lvl := by
  cases avail with
  | false =>
    simp only [setup_cython_extension, reduceIte, Except.ok.injEq] at hrun
    subst hrun
    simp at hm
  | true =>
    simp only [setup_cython_extension, Bool.true_eq_false, reduceIte] at hrun
    rw [hlvl] at hrun
    cases hres : resolveHaveMkl env fs with
    | error e => rw [hres] at hrun; cases hrun
    | ok hmk =>
      rw [hres] at hrun
      simp only [Except.ok.injEq] at hrun
      subst hrun
      simp only [List.mem_singleton] at hm
      subst hm
      rfl

/-- Claim C2: if the integer level read from `TENPY_OPTIMIZE` is at least 2,
`setup_cython_extension` sets the `boundscheck` and `initializedcheck`
compiler directives to `False`; at any level at most 1 both directives are
absent (left at their checked defaults). -/
theorem optimize_ge2_disables_checks (avail : Bool) (env : Env)
    (fs : String → Bool) (lvl : Int) (mods : List ExtModule) (m : ExtModule)
    (hlvl : readTenpyOptimize env = Except.ok lvl)
    (hrun : setup_cython_extension avail env fs = Except.ok mods)
    (hm : m ∈ mods) :
    (2 ≤ lvl → m.compiler_directives.boundscheck = some false ∧
               m.compiler_directives.initializedcheck = some false) ∧
    (lvl ≤ 1 → m.compiler_directives.boundscheck = none ∧
               m.compiler_directives.initializedcheck = none) := by
  rw [setup_ok_module avail env fs lvl mods m hlvl hrun hm]
  refine ⟨fun h => ?_, fun h => ?_⟩
  · simp only [compDirect]
    rw [if_pos (show (1:Int) < lvl by omega)]
    exact ⟨rfl, rfl⟩
  · simp only [compDirect]
    rw [if_neg (show ¬ (1:Int) < lvl by omega)]
    exact ⟨rfl, rfl⟩

/-- Witness for C2 at `TENPY_OPTIMIZE = "2"`. -/
theorem optimize_ge2_disables_checks_witness :
    readTenpyOptimize { envAllUnset with tenpyOptimize := some "2" } = Except.ok 2 ∧
    setup_cython_extension true { envAllUnset with tenpyOptimize := some "2" } fsEmpty
      = Except.ok [buildExtModule { envAllUnset with tenpyOptimize := some "2" } 2 0] ∧
    (buildExtModule { envAllUnset with tenpyOptimize := some "2" } 2 0).compiler_directives.boundscheck
      = some false :=
  ⟨by rfl, by rfl,
    ((optimize_ge2_disables_checks true { envAllUnset with tenpyOptimize := some "2" }
        fsEmpty 2 [buildExtModule { envAllUnset with tenpyOptimize := some "2" } 2 0]
        (buildExtModule { envAllUnset with tenpyOptimize := some "2" } 2 0)
        (by rfl) (by rfl) (by simp)).1 (by norm_num)).1⟩

/-- Claim C5: if the integer level read from `TENPY_OPTIMIZE` is strictly
below 1, `setup_cython_extension` sets the `profile` and `linetrace`
compiler directives to `True`; at any level at least 1 both directives are
absent (profiling hooks not enabled). -/
theorem optimize_lt1_enables_profiling (avail : Bool) (env : Env)
    (fs : String → Bool) (lvl : Int) (mods : List ExtModule) (m : ExtModule)
    (hlvl : readTenpyOptimize env = Except.ok lvl)
    (hrun : setup_cython_extension avail env fs = Except.ok mods)
    (hm : m ∈ mods) :
    (lvl < 1 → m.compiler_directives.profile = some true ∧
               m.compiler_directives.linetrace = some true) ∧
    (1 ≤ lvl → m.compiler_directives.profile = none ∧
               m.compiler_directives.linetrace = none) := by
  rw [setup_ok_module avail env fs lvl mods m hlvl hrun hm]
  refine ⟨fun h => ?_, fun h => ?_⟩
  · simp only [compDirect]
    rw [if_pos (show lvl < (1:Int) by omega)]
    exact ⟨rfl, rfl⟩
  · simp only [compDirect]
    rw [if_neg (show ¬ lvl < (1:Int) by omega)]
    exact ⟨rfl, rfl⟩

/-- Witness for C5 at `TENPY_OPTIMIZE = "0"`. -/
theorem optimize_lt1_enables_profiling_witness :
    readTenpyOptimize { envAllUnset with tenpyOptimize := some "0" } = Except.ok 0 ∧
    setup_cython_extension true { envAllUnset with tenpyOptimize := some "0" } fsEmpty
      = Except.ok [buildExtModule { envAllUnset with tenpyOptimize := some "0" } 0 0] ∧
    (buildExtModule { envAllUnset with tenpyOptimize := some "0" } 0 0).compiler_directives.profile
      = some true :=
  ⟨by rfl, by rfl,
    ((optimize_lt1_enables_profiling true { envAllUnset with tenpyOptimize := some "0" }
        fsEmpty 0 [buildExtModule { envAllUnset with tenpyOptimize := some "0" } 0 0]
        (buildExtModule { envAllUnset with tenpyOptimize := some "0" } 0 0)
        (by rfl) (by rfl) (by simp)).1 (by norm_num)).1⟩

/-- Claim C6: with `TENPY_OPTIMIZE` unset the level defaults to 1, and the
compiler directives are exactly the baseline `language_level = 3` and
`embedsignature = True` — no checking directives disabled, no profiling
directives enabled. -/
theorem default_optimize_level_baseline_directives (avail : Bool) (env : Env)
    (fs : String → Bool) (mods : List ExtModule) (m : ExtModule)
    (hunset : env.tenpyOptimize = none)
    (hrun : setup_cython_extension avail env fs = Except.ok mods)
    (hm : m ∈ mods) :
    m.compiler_directives =
      { language_level := 3
        embedsignature := true
        initializedcheck := none
        boundscheck := none
        profile := none
        linetrace := none } := by
  have hlvl : readTenpyOptimize env = Except.ok 1 := by
    simp [readTenpyOptimize, hunset]
  rw [setup_ok_module avail env fs 1 mods m hlvl hrun hm]
  rfl

/-- Witness for C6: every variable unset. -/
theorem default_optimize_level_baseline_directives_witness :
    envAllUnset.tenpyOptimize = none ∧
    setup_cython_extension true envAllUnset fsEmpty
      = Except.ok [buildExtModule envAllUnset 1 0] ∧
    (buildExtModule envAllUnset 1 0).compiler_directives =
      { language_level := 3
        embedsignature := true
        initializedcheck := none
        boundscheck := none
        profile := none
        linetrace := none } :=
  ⟨rfl, by rfl,
    default_optimize_level_baseline_directives true envAllUnset fsEmpty
      [buildExtModule envAllUnset 1 0] (buildExtModule envAllUnset 1 0)
      rfl (by rfl) (by simp)⟩

/-- Counterexample to C3 as stated: with `MKL_DIR` set to the *empty* string
and `MKLROOT` set non-empty (no conda prefix, `HAVE_MKL` unset), one of the
three variables is set non-empty, so the claim demands `HAVE_MKL = 1`; but
the `os.getenv` fallback chain of line 101 lets the set-but-empty `MKL_DIR`
shadow `MKLROOT`, so the code detects `HAVE_MKL = 0` and links nothing. -/
theorem mkl_detection_counterexample :
    (Env.mk (some "1") none (some "") (some "/opt/mkl") none none none).mklRoot
        = some "/opt/mkl" ∧
    (Env.mk (some "1") none (some "") (some "/opt/mkl") none none none).haveMkl = none ∧
    (setup_cython_extension true
        (Env.mk (some "1") none (some "") (some "/opt/mkl") none none none)
        (fun _ => false)).map
        (List.map (fun (m : ExtModule) => (m.compileTimeEnv.HAVE_MKL, m.libraries)))
      = Except.ok [(0, [])] :=
  ⟨rfl, rfl, by rfl⟩

/-- Claim C3 (amended): the vendor libraries `mkl_rt`, `pthread`, `iomp5`
are linked exactly when the resulting `HAVE_MKL` is nonzero (and no library
is linked otherwise); with the `HAVE_MKL` environment variable unset,
`HAVE_MKL` is auto-detected as 1 exactly when the `os.getenv` fallback
chain over `MKL_DIR`/`MKLROOT`/`MKL_HOME` yields a non-empty value (a set
variable shadows the later ones even when empty), or otherwise when
`CONDA_PREFIX` is set non-empty and `mkl.h` exists under
`$CONDA_PREFIX/include`; a set `HAVE_MKL` environment variable overrides
the auto-detection with its parsed integer value. -/
theorem mkl_detection_amended (avail : Bool) (env : Env) (fs : String → Bool)
    (mods : List ExtModule) (m : ExtModule)
    (hrun : setup_cython_extension avail env fs = Except.ok mods)
    (hm : m ∈ mods) :
    (m.libraries = if m.compileTimeEnv.HAVE_MKL ≠ 0 then ["mkl_rt", "pthread", "iomp5"] else []) ∧
    (env.haveMkl = none →
      m.compileTimeEnv.HAVE_MKL =
        if env.mklDir.getD (env.mklRoot.getD (env.mklHome.getD "")) ≠ "" then 1
        else if env.condaPrefix.getD "" ≠ ""
                ∧ fs (pathJoin (pathJoin (env.condaPrefix.getD "") "include") "mkl.h") = true
          then 1 else 0) ∧
    (∀ s, env.haveMkl = some s → parsePyInt s = some m.compileTimeEnv.HAVE_MKL) := by
  cases avail with
  | false =>
    simp only [setup_cython_extension, reduceIte, Except.ok.injEq] at hrun
    subst hrun
    simp at hm
  | true =>
    simp only [setup_cython_extension, Bool.true_eq_false, reduceIte] at hrun
    cases hlvl : readTenpyOptimize env with
    | error e => rw [hlvl] at hrun; cases hrun
    | ok lvl =>
      rw [hlvl] at hrun
      cases hres : resolveHaveMkl env fs with
      | error e => rw [hres] at hrun; cases hrun
      | ok hmk =>
        rw [hres] at hrun
        simp only [Except.ok.injEq] at hrun
        subst hrun
        simp only [List.mem_singleton] at hm
        subst hm
        refine ⟨?_, fun hnone => ?_, fun s hsome => ?_⟩
        · by_cases hz : hmk = 0 <;> simp [buildExtModule, hz]
        · simp only [resolveHaveMkl, hnone, Except.ok.injEq] at hres
          subst hres
          simp only [buildExtModule, mklDirChain]
          by_cases hd : env.mklDir.getD (env.mklRoot.getD (env.mklHome.getD "")) = "" <;>
            by_cases hc : env.condaPrefix.getD "" = "" <;>
              simp [hd, hc]
        · simp only [resolveHaveMkl, hsome] at hres
          cases hp : parsePyInt s with
          | none => simp only [hp] at hres; cases hres
          | some n =>
            simp only [hp, Except.ok.injEq] at hres
            subst hres
            simp only [buildExtModule, hp]

/-- Witness for the amended C3 with `MKLROOT` set non-empty: `HAVE_MKL`
resolves to 1 and the vendor libraries are linked. -/
theorem mkl_detection_amended_witness :
    setup_cython_extension true (Env.mk none none none (some "/opt/mkl") none none none) fsEmpty
      = Except.ok [buildExtModule (Env.mk none none none (some "/opt/mkl") none none none) 1 1] ∧
    (buildExtModule (Env.mk none none none (some "/opt/mkl") none none none) 1 1).libraries
      = (if (buildExtModule (Env.mk none none none (some "/opt/mkl") none none none) 1 1).compileTimeEnv.HAVE_MKL ≠ 0
          then ["mkl_rt", "pthread", "iomp5"] else []) :=
  ⟨by rfl,
    (mkl_detection_amended true (Env.mk none none none (some "/opt/mkl") none none none) fsEmpty
      [buildExtModule (Env.mk none none none (some "/opt/mkl") none none none) 1 1]
      (buildExtModule (Env.mk none none none (some "/opt/mkl") none none none) 1 1)
      (by rfl) (by simp)).1⟩

/-- Claim C4 (modelled from the spec, `tenpy/tools/optimization.py` not
being under the sources): the optimization level is one piece of global,
runtime-mutable state, read afresh at the start of each operation — after
any history of events, a `setLevel l` makes the next operation validate
according to `l` alone, and later operations keep using `l` until the next
change. -/
theorem optimization_level_runtime_global (init l : Int) (n : String)
    (pre post : List OptEvent) :
    runWithOptimization init
        (pre ++ OptEvent.setLevel l :: OptEvent.operation n :: post)
      = runWithOptimization init pre
          ++ (n, checksEnabled l) :: runWithOptimization l post := by
  induction pre generalizing init with
  | nil => rfl
  | cons e es ih => cases e <;> simp [runWithOptimization, ih]

/-- Claim C8: when the Cython import failed (`cythonize is None`),
`setup_cython_extension` raises nothing and returns the empty
extension-module list. -/
theorem no_cython_returns_empty (env : Env) (fs : String → Bool) :
    setup_cython_extension false env fs = Except.ok [] := rfl

/-- Claim C9: `write_underscore_version_py` writes no file at all — its
effect trace contains no file write, and its outcome does not depend on the
`filename` parameter. -/
theorem write_version_py_writes_nothing (w : World) (filename other : String) :
    (write_underscore_version_py w filename).fileWrites = [] ∧
    write_underscore_version_py w filename = write_underscore_version_py w other := by
  unfold write_underscore_version_py
  rcases h : get_version_info w with ⟨v, t⟩
  cases v with
  | error e => exact ⟨rfl, rfl⟩
  | ok p =>
    cases p with
    | mk fv gr => exact ⟨rfl, rfl⟩

/-- Claim C10: without a `.git` entry in the working directory,
`get_git_revision` returns `"unknown"` and `get_git_description` returns
`0`, in both cases invoking no subprocess and raising nothing. -/
theorem no_git_dir_defaults (w : World) (h : w.fs ".git" = false) :
    get_git_revision w = ("unknown", []) ∧
    get_git_description w = (Except.ok 0, []) := by
  unfold get_git_revision get_git_description
  rw [h]
  simp

/-- Witness for C10: a world with no filesystem entries and a git oracle
that would raise if it were ever consulted. -/
theorem no_git_dir_defaults_witness :
    (World.mk (fun _ => false) (fun _ => Except.error "fatal: not a git repository") "1.26.4" "3.0.10").fs ".git" = false ∧
    (get_git_revision (World.mk (fun _ => false) (fun _ => Except.error "fatal: not a git repository") "1.26.4" "3.0.10")
        = ("unknown", []) ∧
     get_git_description (World.mk (fun _ => false) (fun _ => Except.error "fatal: not a git repository") "1.26.4" "3.0.10")
        = (Except.ok 0, [])) :=
  ⟨rfl,
    no_git_dir_defaults
      (World.mk (fun _ => false) (fun _ => Except.error "fatal: not a git repository") "1.26.4" "3.0.10") rfl⟩
